import Mathlib

/-!
Shallow embedding of the SSH-tunnel / RDS connection manager of
`src/src/mcp-server/rds-handler.ts` (class `RdsHandler`).

The handler keeps two mutable registries, `this.connections` and
`this.tunnels`, which we model as association lists from string keys to
records (JavaScript objects preserve insertion order for string keys;
assignment of a fresh key appends, assignment of an existing key updates
in place, `delete` removes).  The asynchronous driver/SDK calls
(`mysql.createConnection`, `pg Client.connect`, `conn.end()`,
`signer.getAuthToken`, the ssh2 handshake and local `net` listener) are
modelled by explicit oracle functions collected in `DriverEnv`: each
oracle returns `Except String _`, an `.error` meaning the underlying
call threw/rejected with that message.  `Date.now()` is passed in as an
explicit `now : Nat` argument.
-/

namespace DevopsMcp

/-- JavaScript truthiness of an optional string value
(`undefined` and `""` are falsy). -/
def jsTruthyStr : Option String → Bool
  | some s => s ≠ ""
  | none => false

/-- JavaScript truthiness of an optional boolean value. -/
def jsTruthyBool : Option Bool → Bool
  | some b => b
  | none => false

/-- JavaScript `n || d` on an optional numeric value (`undefined` and `0`
are falsy, so `port: port || 3306` maps `none` and `some 0` to `3306`). -/
def jsOrNat : Option Nat → Nat → Nat
  | some n, d => if n = 0 then d else n
  | none, d => d

/-- A JavaScript object used as a string-keyed map, in insertion order. -/
abbrev JsRecord (α : Type) := List (String × α)

/-- Property lookup `obj[key]` on a `JsRecord`. -/
def lookupA {α : Type} : JsRecord α → String → Option α
  | [], _ => none
  | (k, v) :: rest, key => if k = key then some v else lookupA rest key

/-- `delete obj[key]` on a `JsRecord`. -/
def eraseA {α : Type} (l : JsRecord α) (key : String) : JsRecord α :=
  l.filter (fun p => decide (p.1 ≠ key))

/-- `obj[key] = v` on a `JsRecord`: updates in place when the key exists,
appends otherwise. -/
def setA {α : Type} (l : JsRecord α) (key : String) (v : α) : JsRecord α :=
  if (lookupA l key).isSome then
    l.map (fun p => if p.1 = key then (key, v) else p)
  else l ++ [(key, v)]

/-- `interface TunnelInfo` (the live `sshClient` and `server` handles are
runtime objects and carry no data relevant to the registries). -/
structure TunnelInfo where
  localHost : String
  localPort : Nat
  dbHost : String
  dbPort : Nat
  tunnelId : String
  deriving DecidableEq

/-- `engine: 'mysql' | 'postgres'`. -/
inductive Engine where
  | mysql
  | postgres
  deriving DecidableEq

/-- `interface ConnectionInfo` (the live driver `connection` object is a
runtime handle; its behaviour is the `DriverEnv` oracles). -/
structure ConnectionInfo where
  engine : Engine
  tunnelId : Option String := none
  deriving DecidableEq

/-- The two registries `this.connections` and `this.tunnels`. -/
structure RdsState where
  connections : JsRecord ConnectionInfo
  tunnels : JsRecord TunnelInfo
  deriving DecidableEq

/-- Errors thrown by the handler.  `notFound` carries the connectionId it
names (`Connection ${connectionId} not found ...`); the other
constructors wrap the message of the underlying failing call. -/
inductive RdsError where
  | notFound (connectionId : String)
  | driver (msg : String)
  | sshAuthMissing
  | ssh (msg : String)
  | token (msg : String)
  | missingSshParams
  deriving DecidableEq

/-- `interface AuthTokenParams` (argument of `getAuthToken`). -/
structure AuthTokenParams where
  hostname : String
  port : Nat
  username : String
  region : Option String := none
  deriving DecidableEq

/-- The `ssl` field of a driver auth config: either the object
`{ rejectUnauthorized: true }` used on the IAM paths, or a plain boolean
(PostgreSQL non-IAM paths).  Absent on the MySQL non-IAM paths. -/
inductive SslSetting where
  | rejectUnauthorized
  | flag (b : Bool)
  deriving DecidableEq

/-- The `authConfig` object handed to `mysql.createConnection` /
`new PgClient`: `clearPasswordPlugin` records the
`authPlugins.mysql_clear_password` entry of the MySQL IAM path. -/
structure DbAuthConfig where
  host : String
  port : Nat
  user : String
  password : String
  database : String
  ssl : Option SslSetting
  clearPasswordPlugin : Bool
  deriving DecidableEq

/-- `interface ConnectionResult`. -/
structure ConnectionResult where
  connectionId : String
  engine : Engine
  connected : Bool
  viaTunnel : Bool
  tunnelId : Option String := none
  deriving DecidableEq

/-- `interface MySqlConnectParams`. -/
structure MySqlConnectParams where
  host : String
  port : Option Nat := none
  user : String
  password : String
  database : String
  useIAM : Option Bool := none
  sshHost : Option String := none
  sshPort : Option Nat := none
  sshUsername : Option String := none
  sshPassword : Option String := none
  sshPrivateKey : Option String := none
  ssl : Option Bool := none
  deriving DecidableEq

/-- `interface PostgresConnectParams` (same fields; `ssl` is honoured on
the non-IAM PostgreSQL paths). -/
structure PostgresConnectParams where
  host : String
  port : Option Nat := none
  user : String
  password : String
  database : String
  useIAM : Option Bool := none
  ssl : Option Bool := none
  sshHost : Option String := none
  sshPort : Option Nat := none
  sshUsername : Option String := none
  sshPassword : Option String := none
  sshPrivateKey : Option String := none
  deriving DecidableEq

/-- `interface TunnelParams` (argument of `createTunnel`). -/
structure TunnelParams where
  sshHost : String
  sshPort : Option Nat := none
  sshUsername : String
  sshPassword : Option String := none
  sshPrivateKey : Option String := none
  dbHost : String
  dbPort : Nat
  localPort : Option Nat := none
  deriving DecidableEq

/-- Oracles for the asynchronous driver/SDK calls the handler awaits.
`rdsSsl` is the value of `process.env.RDS_SSL === 'true'`;
`tunnelResult` is the outcome of the SSH handshake + `forwardOut` +
local listen of `createTunnel` (`.ok p` = success with OS-assigned local
port `p`); `tokenFor` is `signer.getAuthToken`; `mysqlConnect` /
`pgConnect` are the driver connect calls on a given auth config. -/
structure DriverEnv where
  rdsSsl : Bool
  tunnelResult : Except String Nat
  tokenFor : AuthTokenParams → Except String String
  mysqlConnect : DbAuthConfig → Except String Unit
  pgConnect : DbAuthConfig → Except String Unit

/-- `RdsHandler.createTunnel`: rejects when neither `sshPassword` nor
`sshPrivateKey` is (truthily) supplied; on SSH/listen failure rejects
with the underlying error and registers nothing; on success stores a
`TunnelInfo` under `tunnel_${Date.now()}` bound to `127.0.0.1` on the
OS-assigned port and resolves with it. -/
def createTunnel (env : DriverEnv) (st : RdsState) (p : TunnelParams)
    (now : Nat) : RdsState × Except RdsError TunnelInfo :=
  if ¬ jsTruthyStr p.sshPassword ∧ ¬ jsTruthyStr p.sshPrivateKey then
    (st, .error .sshAuthMissing)
  else
    match env.tunnelResult with
    | .error e => (st, .error (.ssh e))
    | .ok assignedPort =>
      let tid := "tunnel_" ++ toString now
      let info : TunnelInfo :=
        { localHost := "127.0.0.1", localPort := assignedPort,
          dbHost := p.dbHost, dbPort := p.dbPort, tunnelId := tid }
      ({ st with tunnels := setA st.tunnels tid info }, .ok info)

/-- `RdsHandler.closeTunnel`: on an unknown id only warns and returns;
otherwise closes the listener and SSH client and deletes the registry
entry.  The method returns `void` and throws on no path, so it is a
total state transformer. -/
def closeTunnel (st : RdsState) (tunnelId : String) : RdsState :=
  match lookupA st.tunnels tunnelId with
  | none => st
  | some _ => { st with tunnels := eraseA st.tunnels tunnelId }

/-- `RdsHandler.closeConnection` with the driver `end()` outcome supplied
by the oracle `closeRes`.  The source `delete`s the registry entry only
after the `await`ed driver close succeeds; a driver error propagates
through the `catch` and leaves both registries untouched. -/
def closeConnection (closeRes : String → Except String Unit)
    (st : RdsState) (connectionId : String) :
    RdsState × Except RdsError String :=
  match lookupA st.connections connectionId with
  | none => (st, .error (.notFound connectionId))
  | some info =>
    match closeRes connectionId with
    | .error e => (st, .error (.driver e))
    | .ok _ =>
      let st1 :=
        if jsTruthyStr info.tunnelId
            ∧ (lookupA st.tunnels (info.tunnelId.getD "")).isSome then
          closeTunnel st (info.tunnelId.getD "")
        else st
      ({ st1 with connections := eraseA st1.connections connectionId },
       .ok ("Đã đóng kết nối " ++ connectionId))

/-- `RdsHandler.close` (the shutdown sweep): iterates a snapshot of
`Object.keys(this.connections)` closing each connection with a
per-iteration `catch` that only logs, then iterates a snapshot of
`Object.keys(this.tunnels)` closing each remaining tunnel likewise. -/
def closeAll (closeRes : String → Except String Unit) (st : RdsState) :
    RdsState :=
  let st1 := (st.connections.map Prod.fst).foldl
    (fun s cid => (closeConnection closeRes s cid).1) st
  (st1.tunnels.map Prod.fst).foldl (fun s tid => closeTunnel s tid) st1

instance exceptDecEq {ε α : Type} [DecidableEq ε] [DecidableEq α] :
    DecidableEq (Except ε α) := fun x y =>
  match x, y with
  | .ok a, .ok b =>
    if h : a = b then .isTrue (by rw [h]) else .isFalse (by simp [h])
  | .error a, .error b =>
    if h : a = b then .isTrue (by rw [h]) else .isFalse (by simp [h])
  | .ok _, .error _ => .isFalse (by simp)
  | .error _, .ok _ => .isFalse (by simp)

/-- Instrumented outcome of a connect call: the resulting registries,
the list of `getAuthToken` requests issued (in order), the auth config
handed to the driver's connect call (when reached), and the
resolved/rejected value of the call. -/
structure ConnectOutcome where
  state : RdsState
  tokenRequests : List AuthTokenParams
  config : Option DbAuthConfig
  result : Except RdsError ConnectionResult
  deriving DecidableEq

/-- Common tail of every connect path: `await` the driver connect on
`cfg`; on success store `{connection, engine, tunnelId?}` under
`connectionId` and resolve with the `ConnectionResult` of the source
(`viaTunnel` is literally `true` on the tunnel paths — where `tunnelId`
is passed as `some _` — and `false` with no `tunnelId` field on the
direct paths). -/
def registerConnection (driverResult : Except String Unit)
    (st1 : RdsState) (cfg : DbAuthConfig) (engine : Engine)
    (connectionId : String) (tunnelId : Option String)
    (tokenReqs : List AuthTokenParams) : ConnectOutcome :=
  match driverResult with
  | .error e =>
    { state := st1, tokenRequests := tokenReqs, config := some cfg,
      result := .error (.driver e) }
  | .ok _ =>
    let info : ConnectionInfo := { engine := engine, tunnelId := tunnelId }
    { state :=
        { st1 with connections := setA st1.connections connectionId info },
      tokenRequests := tokenReqs, config := some cfg,
      result := .ok { connectionId := connectionId, engine := engine,
                      connected := true, viaTunnel := tunnelId.isSome,
                      tunnelId := tunnelId } }

/-- `RdsHandler.connectToMySqlWithTunnel`. -/
def connectToMySqlWithTunnel (env : DriverEnv) (st : RdsState)
    (p : MySqlConnectParams) (now : Nat) : ConnectOutcome :=
  if ¬ (jsTruthyStr p.sshHost ∧ jsTruthyStr p.sshUsername) then
    { state := st, tokenRequests := [], config := none,
      result := .error .missingSshParams }
  else
    match createTunnel env st
      { sshHost := p.sshHost.getD "", sshPort := p.sshPort,
        sshUsername := p.sshUsername.getD "",
        sshPassword := p.sshPassword, sshPrivateKey := p.sshPrivateKey,
        dbHost := p.host, dbPort := jsOrNat p.port 3306,
        localPort := some 0 } now with
    | (st1, .error e) =>
      { state := st1, tokenRequests := [], config := none,
        result := .error e }
    | (st1, .ok tunnel) =>
      if jsTruthyBool p.useIAM then
        match env.tokenFor { hostname := p.host, port := jsOrNat p.port 3306,
                             username := p.user } with
        | .error e =>
          { state := st1,
            tokenRequests := [{ hostname := p.host,
                                port := jsOrNat p.port 3306,
                                username := p.user }],
            config := none, result := .error (.token e) }
        | .ok token =>
          registerConnection
            (env.mysqlConnect
              { host := tunnel.localHost, port := tunnel.localPort,
                user := p.user, password := token, database := p.database,
                ssl := some .rejectUnauthorized, clearPasswordPlugin := true })
            st1
            { host := tunnel.localHost, port := tunnel.localPort,
              user := p.user, password := token, database := p.database,
              ssl := some .rejectUnauthorized, clearPasswordPlugin := true }
            .mysql
            ("mysql_ssh_" ++ p.host ++ "_" ++ p.database ++ "_" ++ toString now)
            (some tunnel.tunnelId)
            [{ hostname := p.host, port := jsOrNat p.port 3306,
               username := p.user }]
      else
        registerConnection
          (env.mysqlConnect
            { host := tunnel.localHost, port := tunnel.localPort,
              user := p.user, password := p.password, database := p.database,
              ssl := none, clearPasswordPlugin := false })
          st1
          { host := tunnel.localHost, port := tunnel.localPort,
            user := p.user, password := p.password, database := p.database,
            ssl := none, clearPasswordPlugin := false }
          .mysql
          ("mysql_ssh_" ++ p.host ++ "_" ++ p.database ++ "_" ++ toString now)
          (some tunnel.tunnelId)
          []

/-- `RdsHandler.connectToMySql`: routes to the tunneled variant when
`params.sshHost` is truthy, otherwise connects directly. -/
def connectToMySql (env : DriverEnv) (st : RdsState)
    (p : MySqlConnectParams) (now : Nat) : ConnectOutcome :=
  if jsTruthyStr p.sshHost then connectToMySqlWithTunnel env st p now
  else
    if jsTruthyBool p.useIAM then
      match env.tokenFor { hostname := p.host, port := jsOrNat p.port 3306,
                           username := p.user } with
      | .error e =>
        { state := st,
          tokenRequests := [{ hostname := p.host,
                              port := jsOrNat p.port 3306,
                              username := p.user }],
          config := none, result := .error (.token e) }
      | .ok token =>
        registerConnection
          (env.mysqlConnect
            { host := p.host, port := jsOrNat p.port 3306, user := p.user,
              password := token, database := p.database,
              ssl := some .rejectUnauthorized, clearPasswordPlugin := true })
          st
          { host := p.host, port := jsOrNat p.port 3306, user := p.user,
            password := token, database := p.database,
            ssl := some .rejectUnauthorized, clearPasswordPlugin := true }
          .mysql
          ("mysql_" ++ p.host ++ "_" ++ p.database ++ "_" ++ toString now)
          none
          [{ hostname := p.host, port := jsOrNat p.port 3306,
             username := p.user }]
    else
      registerConnection
        (env.mysqlConnect
          { host := p.host, port := jsOrNat p.port 3306, user := p.user,
            password := p.password, database := p.database,
            ssl := none, clearPasswordPlugin := false })
        st
        { host := p.host, port := jsOrNat p.port 3306, user := p.user,
          password := p.password, database := p.database,
          ssl := none, clearPasswordPlugin := false }
        .mysql
        ("mysql_" ++ p.host ++ "_" ++ p.database ++ "_" ++ toString now)
        none
        []

/-- `RdsHandler.connectToPostgresWithTunnel`. -/
def connectToPostgresWithTunnel (env : DriverEnv) (st : RdsState)
    (p : PostgresConnectParams) (now : Nat) : ConnectOutcome :=
  if ¬ (jsTruthyStr p.sshHost ∧ jsTruthyStr p.sshUsername) then
    { state := st, tokenRequests := [], config := none,
      result := .error .missingSshParams }
  else
    match createTunnel env st
      { sshHost := p.sshHost.getD "", sshPort := p.sshPort,
        sshUsername := p.sshUsername.getD "",
        sshPassword := p.sshPassword, sshPrivateKey := p.sshPrivateKey,
        dbHost := p.host, dbPort := jsOrNat p.port 5432,
        localPort := some 0 } now with
    | (st1, .error e) =>
      { state := st1, tokenRequests := [], config := none,
        result := .error e }
    | (st1, .ok tunnel) =>
      if jsTruthyBool p.useIAM then
        match env.tokenFor { hostname := p.host, port := jsOrNat p.port 5432,
                             username := p.user } with
        | .error e =>
          { state := st1,
            tokenRequests := [{ hostname := p.host,
                                port := jsOrNat p.port 5432,
                                username := p.user }],
            config := none, result := .error (.token e) }
        | .ok token =>
          registerConnection
            (env.pgConnect
              { host := tunnel.localHost, port := tunnel.localPort,
                user := p.user, password := token, database := p.database,
                ssl := some .rejectUnauthorized, clearPasswordPlugin := false })
            st1
            { host := tunnel.localHost, port := tunnel.localPort,
              user := p.user, password := token, database := p.database,
              ssl := some .rejectUnauthorized, clearPasswordPlugin := false }
            .postgres
            ("postgres_ssh_" ++ p.host ++ "_" ++ p.database ++ "_"
              ++ toString now)
            (some tunnel.tunnelId)
            [{ hostname := p.host, port := jsOrNat p.port 5432,
               username := p.user }]
      else
        registerConnection
          (env.pgConnect
            { host := tunnel.localHost, port := tunnel.localPort,
              user := p.user, password := p.password, database := p.database,
              ssl := some (.flag (p.ssl.getD false || env.rdsSsl)),
              clearPasswordPlugin := false })
          st1
          { host := tunnel.localHost, port := tunnel.localPort,
            user := p.user, password := p.password, database := p.database,
            ssl := some (.flag (p.ssl.getD false || env.rdsSsl)),
            clearPasswordPlugin := false }
          .postgres
          ("postgres_ssh_" ++ p.host ++ "_" ++ p.database ++ "_"
            ++ toString now)
          (some tunnel.tunnelId)
          []

/-- `RdsHandler.connectToPostgres`: routes to the tunneled variant when
`params.sshHost` is truthy, otherwise connects directly.  On the non-IAM
path the config's `ssl` field is the source's `ssl || process.env.RDS_SSL
=== 'true'` (JavaScript `||`, so a supplied `false` falls through to the
environment flag). -/
def connectToPostgres (env : DriverEnv) (st : RdsState)
    (p : PostgresConnectParams) (now : Nat) : ConnectOutcome :=
  if jsTruthyStr p.sshHost then connectToPostgresWithTunnel env st p now
  else
    if jsTruthyBool p.useIAM then
      match env.tokenFor { hostname := p.host, port := jsOrNat p.port 5432,
                           username := p.user } with
      | .error e =>
        { state := st,
          tokenRequests := [{ hostname := p.host,
                              port := jsOrNat p.port 5432,
                              username := p.user }],
          config := none, result := .error (.token e) }
      | .ok token =>
        registerConnection
          (env.pgConnect
            { host := p.host, port := jsOrNat p.port 5432, user := p.user,
              password := token, database := p.database,
              ssl := some .rejectUnauthorized, clearPasswordPlugin := false })
          st
          { host := p.host, port := jsOrNat p.port 5432, user := p.user,
            password := token, database := p.database,
            ssl := some .rejectUnauthorized, clearPasswordPlugin := false }
          .postgres
          ("postgres_" ++ p.host ++ "_" ++ p.database ++ "_" ++ toString now)
          none
          [{ hostname := p.host, port := jsOrNat p.port 5432,
             username := p.user }]
    else
      registerConnection
        (env.pgConnect
          { host := p.host, port := jsOrNat p.port 5432, user := p.user,
            password := p.password, database := p.database,
            ssl := some (.flag (p.ssl.getD false || env.rdsSsl)),
            clearPasswordPlugin := false })
        st
        { host := p.host, port := jsOrNat p.port 5432, user := p.user,
          password := p.password, database := p.database,
          ssl := some (.flag (p.ssl.getD false || env.rdsSsl)),
          clearPasswordPlugin := false }
        .postgres
        ("postgres_" ++ p.host ++ "_" ++ p.database ++ "_" ++ toString now)
        none
        []

/-- `interface QueryParams`. -/
structure QueryParams where
  connectionId : String
  query : String
  values : Option (List String) := none
  deriving DecidableEq

/-- One element of `TransactionParams.queries`: `{sql, values?}`. -/
structure Stmt where
  sql : String
  values : Option (List String) := none
  deriving DecidableEq

/-- `interface TransactionParams`. -/
structure TransactionParams where
  connectionId : String
  queries : List Stmt
  deriving DecidableEq

/-- `RdsHandler.executeQuery` with the driver's per-statement behaviour
supplied by `execQ` (rows of type `ρ`). -/
def executeQuery {ρ : Type} (execQ : Engine → String → List String → Except String ρ)
    (st : RdsState) (p : QueryParams) : Except RdsError ρ :=
  match lookupA st.connections p.connectionId with
  | none => .error (.notFound p.connectionId)
  | some info =>
    match execQ info.engine p.query (p.values.getD []) with
    | .ok rows => .ok rows
    | .error e => .error (.driver e)

/-- The `for (const query of queries)` loop body of `executeTransaction`:
runs statements left to right, stopping at the first failure.  Returns
the list of statements actually executed (in execution order) together
with the accumulated rows or the first error. -/
def runStmts {ρ : Type} (exec : Stmt → Except String ρ) :
    List Stmt → List Stmt × Except String (List ρ)
  | [] => ([], .ok [])
  | q :: qs =>
    match exec q with
    | .error e => ([q], .error e)
    | .ok r =>
      match runStmts exec qs with
      | (tr, .ok rs) => (q :: tr, .ok (r :: rs))
      | (tr, .error e) => (q :: tr, .error e)

/-- `RdsHandler.executeTransaction` with the transaction-control outcomes
(`beginTransaction`/`BEGIN`, `commit`/`COMMIT`, `rollback`/`ROLLBACK`)
and per-statement behaviour supplied as oracles.  Mirrors the source's
nesting: the inner `try` covers the statement loop and the commit; its
`catch` awaits the rollback and then rethrows the caught error — so a
rollback that itself throws replaces the caught error with its own,
which the outer `catch` logs and rethrows.  Also returns the list of
statements that were executed. -/
def executeTransaction {ρ : Type} (beginR commitR rollbackR : Except String Unit)
    (exec : Stmt → Except String ρ) (st : RdsState)
    (p : TransactionParams) : List Stmt × Except RdsError (List ρ) :=
  match lookupA st.connections p.connectionId with
  | none => ([], .error (.notFound p.connectionId))
  | some _ =>
    match beginR with
    | .error e => ([], .error (.driver e))
    | .ok _ =>
      match runStmts exec p.queries with
      | (tr, .ok rs) =>
        match commitR with
        | .ok _ => (tr, .ok rs)
        | .error ce =>
          match rollbackR with
          | .ok _ => (tr, .error (.driver ce))
          | .error re => (tr, .error (.driver re))
      | (tr, .error e) =>
        match rollbackR with
        | .ok _ => (tr, .error (.driver e))
        | .error re => (tr, .error (.driver re))

/-! ### Registry (association-list) lemmas -/

theorem lookupA_eq_none_iff {α : Type} (l : JsRecord α) (key : String) :
    lookupA l key = none ↔ ∀ p ∈ l, p.1 ≠ key := by
  induction l with
  | nil => simp [lookupA]
  | cons hd tl ih =>
    obtain ⟨k, v⟩ := hd
    by_cases h : k = key
    · subst h
      simp [lookupA]
    · simp [lookupA, h, ih]

theorem lookupA_cons {α : Type} (k : String) (v : α) (tl : JsRecord α)
    (key : String) :
    lookupA ((k, v) :: tl) key
      = if k = key then some v else lookupA tl key := rfl

theorem mem_eraseA {α : Type} {p : String × α} {l : JsRecord α}
    {key : String} : p ∈ eraseA l key ↔ p ∈ l ∧ p.1 ≠ key := by
  simp [eraseA, List.mem_filter]

theorem eraseA_eq_self_of_none {α : Type} {l : JsRecord α} {key : String}
    (h : lookupA l key = none) : eraseA l key = l := by
  rw [lookupA_eq_none_iff] at h
  induction l with
  | nil => rfl
  | cons hd tl ih =>
    have h1 : hd.1 ≠ key := h hd (List.mem_cons_self hd tl)
    have h2 : ∀ p ∈ tl, p.1 ≠ key :=
      fun p hp => h p (List.mem_cons_of_mem hd hp)
    calc eraseA (hd :: tl) key = hd :: eraseA tl key := by
          simp [eraseA, List.filter_cons, h1]
      _ = hd :: tl := by rw [ih h2]

theorem lookupA_eraseA_self {α : Type} (l : JsRecord α) (key : String) :
    lookupA (eraseA l key) key = none := by
  rw [lookupA_eq_none_iff]
  intro p hp
  exact (mem_eraseA.1 hp).2

theorem lookupA_append_right {α : Type} {l : JsRecord α} {key : String}
    (h : lookupA l key = none) (v : α) :
    lookupA (l ++ [(key, v)]) key = some v := by
  induction l with
  | nil => simp [lookupA_cons, lookupA]
  | cons hd tl ih =>
    obtain ⟨k, w⟩ := hd
    by_cases hk : k = key
    · rw [lookupA_cons, if_pos hk] at h
      exact absurd h (by simp)
    · rw [lookupA_cons, if_neg hk] at h
      rw [List.cons_append, lookupA_cons, if_neg hk]
      exact ih h

theorem lookupA_map_replace {α : Type} {l : JsRecord α} {key : String}
    (v : α) (h : (lookupA l key).isSome = true) :
    lookupA (l.map (fun p => if p.1 = key then (key, v) else p)) key
      = some v := by
  induction l with
  | nil => simp [lookupA] at h
  | cons hd tl ih =>
    obtain ⟨k, w⟩ := hd
    by_cases hk : k = key
    · subst hk
      simp [lookupA_cons]
    · rw [lookupA_cons, if_neg hk] at h
      simp only [List.map_cons]
      simp [lookupA_cons, hk]
      exact ih h

theorem lookupA_setA_self {α : Type} (l : JsRecord α) (key : String)
    (v : α) : lookupA (setA l key v) key = some v := by
  unfold setA
  by_cases h : (lookupA l key).isSome = true
  · rw [if_pos h]
    exact lookupA_map_replace v h
  · rw [if_neg h]
    have hn : lookupA l key = none := by
      cases hh : lookupA l key with
      | none => rfl
      | some w => rw [hh] at h; simp at h
    exact lookupA_append_right hn v

theorem lookupA_isSome_of_mem {α : Type} {l : JsRecord α}
    {p : String × α} (hp : p ∈ l) : lookupA l p.1 ≠ none := by
  intro h
  exact (lookupA_eq_none_iff l p.1).1 h p hp rfl

/-! ### Structural lemmas about the handler's operations -/

theorem closeTunnel_connections (st : RdsState) (tid : String) :
    (closeTunnel st tid).connections = st.connections := by
  unfold closeTunnel
  cases lookupA st.tunnels tid <;> rfl

theorem closeTunnel_tunnels (st : RdsState) (tid : String) :
    (closeTunnel st tid).tunnels = eraseA st.tunnels tid := by
  unfold closeTunnel
  cases h : lookupA st.tunnels tid with
  | none => simpa using (eraseA_eq_self_of_none h).symm
  | some _ => rfl

theorem closeTunnel_of_none {st : RdsState} {tid : String}
    (h : lookupA st.tunnels tid = none) : closeTunnel st tid = st := by
  unfold closeTunnel
  rw [h]

theorem registerConnection_tunnels (d : Except String Unit)
    (st1 : RdsState) (cfg : DbAuthConfig) (e : Engine) (cid : String)
    (tid : Option String) (reqs : List AuthTokenParams) :
    (registerConnection d st1 cfg e cid tid reqs).state.tunnels
      = st1.tunnels := by
  cases d <;> rfl

theorem registerConnection_config (d : Except String Unit)
    (st1 : RdsState) (cfg : DbAuthConfig) (e : Engine) (cid : String)
    (tid : Option String) (reqs : List AuthTokenParams) :
    (registerConnection d st1 cfg e cid tid reqs).config = some cfg := by
  cases d <;> rfl

theorem registerConnection_result_ok (d : Except String Unit)
    (st1 : RdsState) (cfg : DbAuthConfig) (e : Engine) (cid : String)
    (tid : Option String) (reqs : List AuthTokenParams)
    (r : ConnectionResult)
    (h : (registerConnection d st1 cfg e cid tid reqs).result = .ok r) :
    r = { connectionId := cid, engine := e, connected := true,
          viaTunnel := tid.isSome, tunnelId := tid } := by
  cases d with
  | error e' => simp [registerConnection] at h
  | ok u => simp [registerConnection] at h; exact h.symm

theorem registerConnection_state_of_result_error (d : Except String Unit)
    (st1 : RdsState) (cfg : DbAuthConfig) (e : Engine) (cid : String)
    (tid : Option String) (reqs : List AuthTokenParams)
    (er : RdsError)
    (h : (registerConnection d st1 cfg e cid tid reqs).result = .error er) :
    (registerConnection d st1 cfg e cid tid reqs).state = st1 := by
  cases d with
  | error e' => rfl
  | ok u => simp [registerConnection] at h

theorem closeConnection_of_none {closeRes : String → Except String Unit}
    {st : RdsState} {cid : String}
    (hl : lookupA st.connections cid = none) :
    closeConnection closeRes st cid = (st, .error (.notFound cid)) := by
  unfold closeConnection
  rw [hl]

theorem closeConnection_of_error {closeRes : String → Except String Unit}
    {st : RdsState} {cid : String} {info : ConnectionInfo} {e : String}
    (hl : lookupA st.connections cid = some info)
    (hc : closeRes cid = .error e) :
    closeConnection closeRes st cid = (st, .error (.driver e)) := by
  unfold closeConnection
  rw [hl, hc]

theorem closeConnection_of_ok {closeRes : String → Except String Unit}
    {st : RdsState} {cid : String} {info : ConnectionInfo} {u : Unit}
    (hl : lookupA st.connections cid = some info)
    (hc : closeRes cid = .ok u) :
    closeConnection closeRes st cid =
      (⟨eraseA st.connections cid,
        if jsTruthyStr info.tunnelId = true
            ∧ (lookupA st.tunnels (info.tunnelId.getD "")).isSome = true
          then eraseA st.tunnels (info.tunnelId.getD "")
          else st.tunnels⟩,
       .ok ("Đã đóng kết nối " ++ cid)) := by
  simp only [closeConnection, hl, hc]
  by_cases hb : jsTruthyStr info.tunnelId = true
      ∧ (lookupA st.tunnels (info.tunnelId.getD "")).isSome = true
  · rw [if_pos hb, if_pos hb]
    simp [closeTunnel_connections, closeTunnel_tunnels]
  · rw [if_neg hb, if_neg hb]

/-! ### C8 — closeTunnel idempotence -/

/-- C8: `closeTunnel` is a total state transformer (the method returns
`void` and throws on no path): a call on a tunnelId absent from the
tunnel registry — in particular a second call after the entry was
removed — is a no-op leaving the state unchanged, a successful close
removes the tunnel's registry entry, and calling twice equals calling
once. -/
theorem closeTunnel_idempotent_C8 (st : RdsState) (tid : String) :
    (lookupA st.tunnels tid = none → closeTunnel st tid = st) ∧
    (∀ info, lookupA st.tunnels tid = some info →
      lookupA (closeTunnel st tid).tunnels tid = none) ∧
    closeTunnel (closeTunnel st tid) tid = closeTunnel st tid := by
  refine ⟨fun h => closeTunnel_of_none h, fun info _ => ?_, ?_⟩
  · rw [closeTunnel_tunnels]
    exact lookupA_eraseA_self _ _
  · apply closeTunnel_of_none
    rw [closeTunnel_tunnels]
    exact lookupA_eraseA_self _ _

/-- Tunnel-registry fixture: a live tunnel registered under `t1`. -/
def tun1 : TunnelInfo :=
  { localHost := "127.0.0.1", localPort := 5000, dbHost := "db.internal",
    dbPort := 3306, tunnelId := "t1" }

def stC8 : RdsState := { connections := [], tunnels := [("t1", tun1)] }

/-- C8 witness: closing the unknown id `t0` is a no-op, and closing the
registered id `t1` removes its entry. -/
theorem closeTunnel_idempotent_C8_witness :
    closeTunnel stC8 "t0" = stC8 ∧
    lookupA (closeTunnel stC8 "t1").tunnels "t1" = none :=
  ⟨(closeTunnel_idempotent_C8 stC8 "t0").1 rfl,
   (closeTunnel_idempotent_C8 stC8 "t1").2.1 tun1 rfl⟩

/-! ### C7 — unknown connectionId fails with NotFoundError -/

/-- C7: `executeQuery`, `executeTransaction` and `closeConnection` on a
connectionId absent from the connection registry each fail with the
not-found error naming that id and never silently no-op
(`closeConnection` returns the state unchanged alongside the error);
and after `closeConnection` succeeds on an id, a subsequent
`executeQuery` on that id fails with the same not-found error. -/
theorem unknown_connection_notFound_C7 {ρ : Type}
    (execQ : Engine → String → List String → Except String ρ)
    (beginR commitR rollbackR : Except String Unit)
    (exec : Stmt → Except String ρ)
    (closeRes : String → Except String Unit)
    (st : RdsState) (cid q : String) (vs : Option (List String))
    (qs : List Stmt) :
    (lookupA st.connections cid = none →
      executeQuery execQ st ⟨cid, q, vs⟩ = .error (.notFound cid) ∧
      executeTransaction beginR commitR rollbackR exec st ⟨cid, qs⟩
        = ([], .error (.notFound cid)) ∧
      closeConnection closeRes st cid = (st, .error (.notFound cid))) ∧
    (∀ m, (closeConnection closeRes st cid).2 = .ok m →
      executeQuery execQ (closeConnection closeRes st cid).1 ⟨cid, q, vs⟩
        = .error (.notFound cid)) := by
  constructor
  · intro h
    refine ⟨?_, ?_, closeConnection_of_none h⟩
    · simp [executeQuery, h]
    · simp [executeTransaction, h]
  · intro m hm
    cases hl : lookupA st.connections cid with
    | none => rw [closeConnection_of_none hl] at hm; simp at hm
    | some info =>
      cases hc : closeRes cid with
      | error e => rw [closeConnection_of_error hl hc] at hm; simp at hm
      | ok u =>
        rw [closeConnection_of_ok hl hc]
        simp [executeQuery, lookupA_eraseA_self]

/-- Connection-registry fixture: one live direct MySQL connection. -/
def stC7 : RdsState :=
  { connections := [("mysql_db_d_1", { engine := .mysql, tunnelId := none })],
    tunnels := [] }

/-- C7 witness: a never-created id fails with the not-found error, and an
id that was successfully closed fails the same way on a later query. -/
theorem unknown_connection_notFound_C7_witness :
    executeQuery (fun _ _ _ => (.ok [] : Except String (List String)))
        stC7 ⟨"ghost", "SELECT 1", none⟩ = .error (.notFound "ghost") ∧
    executeQuery (fun _ _ _ => (.ok [] : Except String (List String)))
        (closeConnection (fun _ => .ok ()) stC7 "mysql_db_d_1").1
        ⟨"mysql_db_d_1", "SELECT 1", none⟩
      = .error (.notFound "mysql_db_d_1") :=
  ⟨((unknown_connection_notFound_C7 (fun _ _ _ => .ok []) (.ok ()) (.ok ())
      (.ok ()) (fun _ => .ok []) (fun _ => .ok ()) stC7 "ghost" "SELECT 1"
      none []).1 rfl).1,
   (unknown_connection_notFound_C7 (fun _ _ _ => .ok []) (.ok ()) (.ok ())
      (.ok ()) (fun _ => .ok []) (fun _ => .ok ()) stC7 "mysql_db_d_1"
      "SELECT 1" none []).2 _ rfl⟩

/-! ### C9 — PostgreSQL SSL flag on the non-IAM paths -/

/-- C9 (amended): for every non-IAM PostgreSQL connect, direct or
tunneled, the `ssl` field handed to the driver is the JavaScript
disjunction `ssl || process.env.RDS_SSL === 'true'` — SSL is on iff the
caller supplied `ssl: true` or the environment flag is set.  In
particular an explicitly supplied `ssl: false` does not override an
environment policy of `true`. -/
theorem postgres_ssl_env_override_C9 (env : DriverEnv) (st : RdsState)
    (p : PostgresConnectParams) (now : Nat)
    (hIam : jsTruthyBool p.useIAM = false) :
    ∀ c, (connectToPostgres env st p now).config = some c →
      c.ssl = some (.flag (p.ssl.getD false || env.rdsSsl)) := by
  intro c hc
  unfold connectToPostgres at hc
  split at hc
  · unfold connectToPostgresWithTunnel at hc
    split at hc
    · simp at hc
    · split at hc
      · simp at hc
      · split at hc
        · rename_i hIam2
          rw [hIam] at hIam2
          simp at hIam2
        · rw [registerConnection_config] at hc
          injection hc with hc
          subst hc
          rfl
  · split at hc
    · rename_i hIam2
      rw [hIam] at hIam2
      simp at hIam2
    · rw [registerConnection_config] at hc
      injection hc with hc
      subst hc
      rfl

def envRdsSslOn : DriverEnv :=
  { rdsSsl := true, tunnelResult := .ok 5000,
    tokenFor := fun _ => .ok "iam-token",
    mysqlConnect := fun _ => .ok (), pgConnect := fun _ => .ok () }

def pgParamsSslFalse : PostgresConnectParams :=
  { host := "db.internal", user := "u", password := "pw", database := "d",
    ssl := some false }

/-- C9 counterexample: with `RDS_SSL === 'true'` in the environment and
the caller explicitly supplying `ssl: false`, the driver config carries
`ssl: true` — the explicit flag is not honoured, contrary to the claim
that a supplied flag (true or false) is used as given. -/
theorem postgres_ssl_explicit_false_ignored_C9_cex :
    pgParamsSslFalse.ssl = some false ∧
    (connectToPostgres envRdsSslOn ⟨[], []⟩ pgParamsSslFalse 5).config =
      some { host := "db.internal", port := 5432, user := "u",
             password := "pw", database := "d",
             ssl := some (.flag true), clearPasswordPlugin := false } :=
  ⟨rfl, rfl⟩

/-- C9 witness: the amended rule evaluated on the concrete call of the
counterexample. -/
theorem postgres_ssl_env_override_C9_witness :
    ({ host := "db.internal", port := 5432, user := "u", password := "pw",
       database := "d", ssl := some (.flag true),
       clearPasswordPlugin := false } : DbAuthConfig).ssl
      = some (.flag (pgParamsSslFalse.ssl.getD false || envRdsSslOn.rdsSsl)) :=
  postgres_ssl_env_override_C9 envRdsSslOn ⟨[], []⟩ pgParamsSslFalse 5 rfl _ rfl

theorem registerConnection_tokenRequests (d : Except String Unit)
    (st1 : RdsState) (cfg : DbAuthConfig) (e : Engine) (cid : String)
    (tid : Option String) (reqs : List AuthTokenParams) :
    (registerConnection d st1 cfg e cid tid reqs).tokenRequests = reqs := by
  cases d <;> rfl

theorem createTunnel_ok_eq {env : DriverEnv} {st : RdsState}
    {p : TunnelParams} {now lp : Nat}
    (hpass : jsTruthyStr p.sshPassword = true)
    (henv : env.tunnelResult = .ok lp) :
    createTunnel env st p now =
      ({ st with tunnels := (setA st.tunnels ("tunnel_" ++ toString now)
            ⟨"127.0.0.1", lp, p.dbHost, p.dbPort,
             "tunnel_" ++ toString now⟩) },
       .ok ⟨"127.0.0.1", lp, p.dbHost, p.dbPort,
            "tunnel_" ++ toString now⟩) := by
  unfold createTunnel
  rw [if_neg (fun h => h.1 hpass), henv]

/-! ### C4 — connectionId uniqueness under rapid repeated calls -/

def envAllOk : DriverEnv :=
  { rdsSsl := false, tunnelResult := .ok 5000,
    tokenFor := fun _ => .ok "iam-token",
    mysqlConnect := fun _ => .ok (), pgConnect := fun _ => .ok () }

def mysqlParamsPlain : MySqlConnectParams :=
  { host := "db.internal", user := "u", password := "pw", database := "d" }

/-- C4: the connectionId of a direct MySQL connect is
`mysql_${host}_${database}_${Date.now()}` with no counter component, so
two successful connects with identical parameters whose `Date.now()`
values coincide (two calls in the same millisecond) return the same
connectionId, and the second registration overwrites the first: the
registry ends with a single entry.  This exhibits the claimed uniqueness
failing on the code. -/
theorem connectionId_collision_same_millisecond_C4 :
    (connectToMySql envAllOk ⟨[], []⟩ mysqlParamsPlain 100).result =
      .ok { connectionId := "mysql_db.internal_d_100", engine := .mysql,
            connected := true, viaTunnel := false, tunnelId := none } ∧
    (connectToMySql envAllOk
        (connectToMySql envAllOk ⟨[], []⟩ mysqlParamsPlain 100).state
        mysqlParamsPlain 100).result =
      .ok { connectionId := "mysql_db.internal_d_100", engine := .mysql,
            connected := true, viaTunnel := false, tunnelId := none } ∧
    (connectToMySql envAllOk
        (connectToMySql envAllOk ⟨[], []⟩ mysqlParamsPlain 100).state
        mysqlParamsPlain 100).state.connections
      = [("mysql_db.internal_d_100",
          { engine := .mysql, tunnelId := none })] :=
  ⟨rfl, rfl, rfl⟩

/-! ### C5 — IAM token bound to the original endpoint -/

/-- C5: on a tunneled IAM connect (MySQL and PostgreSQL alike) the IAM
token is requested for the caller's original DB host and default-adjusted
port with the caller's username — never for the tunnel's local
endpoint — while the driver session is opened against the tunnel's
bound local endpoint `127.0.0.1:assignedPort` with the returned token as
the password (MySQL additionally with TLS and the clear-password
plugin). -/
theorem iam_token_for_original_host_C5 (env : DriverEnv) (st : RdsState)
    (pM : MySqlConnectParams) (pP : PostgresConnectParams) (now lp : Nat)
    (tokM tokP : String) :
    (jsTruthyStr pM.sshHost = true → jsTruthyStr pM.sshUsername = true →
     jsTruthyStr pM.sshPassword = true → jsTruthyBool pM.useIAM = true →
     env.tunnelResult = .ok lp →
     env.tokenFor { hostname := pM.host, port := jsOrNat pM.port 3306,
                    username := pM.user } = .ok tokM →
     (connectToMySql env st pM now).tokenRequests
        = [{ hostname := pM.host, port := jsOrNat pM.port 3306,
             username := pM.user }] ∧
     (connectToMySql env st pM now).config =
        some { host := "127.0.0.1", port := lp, user := pM.user,
               password := tokM, database := pM.database,
               ssl := some .rejectUnauthorized,
               clearPasswordPlugin := true }) ∧
    (jsTruthyStr pP.sshHost = true → jsTruthyStr pP.sshUsername = true →
     jsTruthyStr pP.sshPassword = true → jsTruthyBool pP.useIAM = true →
     env.tunnelResult = .ok lp →
     env.tokenFor { hostname := pP.host, port := jsOrNat pP.port 5432,
                    username := pP.user } = .ok tokP →
     (connectToPostgres env st pP now).tokenRequests
        = [{ hostname := pP.host, port := jsOrNat pP.port 5432,
             username := pP.user }] ∧
     (connectToPostgres env st pP now).config =
        some { host := "127.0.0.1", port := lp, user := pP.user,
               password := tokP, database := pP.database,
               ssl := some .rejectUnauthorized,
               clearPasswordPlugin := false }) := by
  constructor
  · intro hssh huser hpass hiam henv htok
    unfold connectToMySql connectToMySqlWithTunnel
    rw [if_pos hssh, if_neg (by simp [hssh, huser]),
        createTunnel_ok_eq hpass henv]
    simp only [hiam, if_true]
    rw [htok]
    exact ⟨registerConnection_tokenRequests _ _ _ _ _ _ _,
           registerConnection_config _ _ _ _ _ _ _⟩
  · intro hssh huser hpass hiam henv htok
    unfold connectToPostgres connectToPostgresWithTunnel
    rw [if_pos hssh, if_neg (by simp [hssh, huser]),
        createTunnel_ok_eq hpass henv]
    simp only [hiam, if_true]
    rw [htok]
    exact ⟨registerConnection_tokenRequests _ _ _ _ _ _ _,
           registerConnection_config _ _ _ _ _ _ _⟩

def mysqlParamsIamTunnel : MySqlConnectParams :=
  { host := "realdb.internal", port := some 3307, user := "iamuser",
    password := "", database := "d", useIAM := some true,
    sshHost := some "bastion", sshUsername := some "admin",
    sshPassword := some "sshpw" }

def pgParamsIamTunnel : PostgresConnectParams :=
  { host := "realdb.internal", port := some 5433, user := "iamuser",
    password := "", database := "d", useIAM := some true,
    sshHost := some "bastion", sshUsername := some "admin",
    sshPassword := some "sshpw" }

/-- C5 witness: the concrete tunneled IAM connects request the token for
the original endpoint (`realdb.internal:3307` resp. `:5433`) and open
the session against `127.0.0.1:5000` with the token as password. -/
theorem iam_token_for_original_host_C5_witness :
    ((connectToMySql envAllOk ⟨[], []⟩ mysqlParamsIamTunnel 9).tokenRequests
        = [{ hostname := "realdb.internal", port := 3307,
             username := "iamuser" }] ∧
     (connectToMySql envAllOk ⟨[], []⟩ mysqlParamsIamTunnel 9).config =
        some { host := "127.0.0.1", port := 5000, user := "iamuser",
               password := "iam-token", database := "d",
               ssl := some .rejectUnauthorized,
               clearPasswordPlugin := true }) ∧
    ((connectToPostgres envAllOk ⟨[], []⟩ pgParamsIamTunnel 9).tokenRequests
        = [{ hostname := "realdb.internal", port := 5433,
             username := "iamuser" }] ∧
     (connectToPostgres envAllOk ⟨[], []⟩ pgParamsIamTunnel 9).config =
        some { host := "127.0.0.1", port := 5000, user := "iamuser",
               password := "iam-token", database := "d",
               ssl := some .rejectUnauthorized,
               clearPasswordPlugin := false }) :=
  ⟨(iam_token_for_original_host_C5 envAllOk ⟨[], []⟩ mysqlParamsIamTunnel
      pgParamsIamTunnel 9 5000 "iam-token" "iam-token").1
      rfl rfl rfl rfl rfl rfl,
   (iam_token_for_original_host_C5 envAllOk ⟨[], []⟩ mysqlParamsIamTunnel
      pgParamsIamTunnel 9 5000 "iam-token" "iam-token").2
      rfl rfl rfl rfl rfl rfl⟩

/-! ### C1 — the shutdown sweep -/

theorem closeConnection_connections_subset
    (f : String → Except String Unit) (s : RdsState) (c : String)
    {p : String × ConnectionInfo}
    (hp : p ∈ ((closeConnection f s c).1).connections) :
    p ∈ s.connections := by
  cases hl : lookupA s.connections c with
  | none => rw [closeConnection_of_none hl] at hp; exact hp
  | some info =>
    cases hc : f c with
    | error e => rw [closeConnection_of_error hl hc] at hp; exact hp
    | ok u => rw [closeConnection_of_ok hl hc] at hp; exact (mem_eraseA.1 hp).1

theorem closeConnection_removes_key
    (f : String → Except String Unit) (s : RdsState) (c : String) (u : Unit)
    (hok : f c = .ok u) {p : String × ConnectionInfo}
    (hp : p ∈ ((closeConnection f s c).1).connections) : p.1 ≠ c := by
  cases hl : lookupA s.connections c with
  | none =>
    rw [closeConnection_of_none hl] at hp
    exact (lookupA_eq_none_iff _ _).1 hl p hp
  | some info =>
    rw [closeConnection_of_ok hl hok] at hp
    exact (mem_eraseA.1 hp).2

theorem foldl_closeConnection_subset (f : String → Except String Unit) :
    ∀ (ks : List String) (st : RdsState) (p : String × ConnectionInfo),
      p ∈ (ks.foldl (fun s cid => (closeConnection f s cid).1) st).connections →
      p ∈ st.connections := by
  intro ks
  induction ks with
  | nil => intro st p hp; exact hp
  | cons k ks ih =>
    intro st p hp
    rw [List.foldl_cons] at hp
    exact closeConnection_connections_subset f st k (ih _ p hp)

theorem foldl_closeConnection_removes (f : String → Except String Unit) :
    ∀ (ks : List String) (st : RdsState) (c : String) (u : Unit),
      c ∈ ks → f c = .ok u →
      ∀ p ∈ (ks.foldl (fun s cid => (closeConnection f s cid).1) st).connections,
        p.1 ≠ c := by
  intro ks
  induction ks with
  | nil => intro st c u hc; exact absurd hc (List.not_mem_nil c)
  | cons k ks ih =>
    intro st c u hc hok p hp
    rw [List.foldl_cons] at hp
    rcases List.mem_cons.1 hc with rfl | hc'
    · exact closeConnection_removes_key f st c u hok
        (foldl_closeConnection_subset f ks _ p hp)
    · exact ih _ c u hc' hok p hp

theorem foldl_closeTunnel_connections :
    ∀ (ks : List String) (st : RdsState),
      (ks.foldl (fun s tid => closeTunnel s tid) st).connections
        = st.connections := by
  intro ks
  induction ks with
  | nil => intro st; rfl
  | cons k ks ih =>
    intro st
    rw [List.foldl_cons, ih, closeTunnel_connections]

theorem foldl_closeTunnel_tunnels_nil :
    ∀ (ks : List String) (st : RdsState),
      (∀ p ∈ st.tunnels, p.1 ∈ ks) →
      (ks.foldl (fun s tid => closeTunnel s tid) st).tunnels = [] := by
  intro ks
  induction ks with
  | nil =>
    intro st h
    exact List.eq_nil_iff_forall_not_mem.mpr
      (fun p hp => absurd (h p hp) (List.not_mem_nil _))
  | cons k ks ih =>
    intro st h
    rw [List.foldl_cons]
    apply ih
    intro p hp
    rw [closeTunnel_tunnels] at hp
    obtain ⟨hpl, hpk⟩ := mem_eraseA.1 hp
    rcases List.mem_cons.1 (h p hpl) with h1 | h2
    · exact absurd h1 hpk
    · exact h2

theorem closeAll_tunnels_nil (f : String → Except String Unit)
    (st : RdsState) : (closeAll f st).tunnels = [] := by
  unfold closeAll
  apply foldl_closeTunnel_tunnels_nil
  intro p hp
  exact List.mem_map_of_mem Prod.fst hp

theorem closeAll_lookup_none_of_ok (f : String → Except String Unit)
    (st : RdsState) (c : String) (u : Unit) (hok : f c = .ok u) :
    lookupA (closeAll f st).connections c = none := by
  rw [lookupA_eq_none_iff]
  intro p hp
  have hp1 : p ∈ ((st.connections.map Prod.fst).foldl
      (fun s cid => (closeConnection f s cid).1) st).connections := by
    simpa [closeAll, foldl_closeTunnel_connections] using hp
  intro hpc
  have hp_st : p ∈ st.connections := foldl_closeConnection_subset f _ st p hp1
  have hkey : c ∈ st.connections.map Prod.fst := by
    rw [← hpc]
    exact List.mem_map_of_mem Prod.fst hp_st
  exact foldl_closeConnection_removes f _ st c u hkey hok p hp1 hpc

theorem closeAll_residual (f : String → Except String Unit) (st : RdsState) :
    ∀ p ∈ (closeAll f st).connections,
      p ∈ st.connections ∧ ∀ u, f p.1 ≠ .ok u := by
  intro p hp
  have hp1 : p ∈ ((st.connections.map Prod.fst).foldl
      (fun s cid => (closeConnection f s cid).1) st).connections := by
    simpa [closeAll, foldl_closeTunnel_connections] using hp
  refine ⟨foldl_closeConnection_subset f _ st p hp1, ?_⟩
  intro u hok
  have hnone := closeAll_lookup_none_of_ok f st p.1 u hok
  rw [lookupA_eq_none_iff] at hnone
  exact hnone p hp rfl

/-- C1 (amended): after the shutdown sweep `close()` the tunnel registry
is always empty, and every connection whose driver close succeeds is
removed — one connection's failure is caught per-iteration and does not
prevent closing the rest.  But a connection whose driver close throws is
NOT removed: the entries surviving the sweep are exactly pre-existing
entries whose driver close failed, so when some close throws the
connection registry is not empty afterwards (only the tunnel registry
is). -/
theorem closeAll_sweep_C1 (f : String → Except String Unit) (st : RdsState) :
    (closeAll f st).tunnels = [] ∧
    (∀ c u, f c = .ok u → lookupA (closeAll f st).connections c = none) ∧
    (∀ p ∈ (closeAll f st).connections,
      p ∈ st.connections ∧ ∀ u, f p.1 ≠ .ok u) :=
  ⟨closeAll_tunnels_nil f st,
   fun c u hok => closeAll_lookup_none_of_ok f st c u hok,
   closeAll_residual f st⟩

/-- Sweep fixture: two live connections, the first tunneled, whose
driver close throws; the second direct, closing fine. -/
def stSweep : RdsState :=
  { connections := [("c1", { engine := .mysql, tunnelId := some "t1" }),
                    ("c2", { engine := .postgres, tunnelId := none })],
    tunnels := [("t1", tun1)] }

/-- Driver-close oracle: closing `c1` throws, everything else closes. -/
def closeResBoom : String → Except String Unit :=
  fun c => if c = "c1" then .error "boom" else .ok ()

/-- C1 counterexample: sweeping `stSweep` with a close that throws on
`c1` leaves the tunnel registry empty but the connection registry still
holding `c1` — not "zero entries in both registries". -/
theorem closeAll_leaves_failed_entry_C1_cex :
    (closeAll closeResBoom stSweep).connections
      = [("c1", { engine := .mysql, tunnelId := some "t1" })] ∧
    (closeAll closeResBoom stSweep).tunnels = [] :=
  ⟨rfl, rfl⟩

/-- C1 witness: the amended sweep statement evaluated on `stSweep`. -/
theorem closeAll_sweep_C1_witness :
    (closeAll closeResBoom stSweep).tunnels = [] ∧
    lookupA (closeAll closeResBoom stSweep).connections "c2" = none ∧
    (("c1", { engine := .mysql, tunnelId := some "t1" })
        ∈ stSweep.connections ∧
     ∀ u, closeResBoom "c1" ≠ .ok u) :=
  ⟨(closeAll_sweep_C1 closeResBoom stSweep).1,
   (closeAll_sweep_C1 closeResBoom stSweep).2.1 "c2" () rfl,
   (closeAll_sweep_C1 closeResBoom stSweep).2.2
     ("c1", { engine := .mysql, tunnelId := some "t1" }) (by decide)⟩

/-! ### C3 — closeConnection vs. failing driver close -/

/-- C3 (amended): for a registered connectionId, `closeConnection`
removes the ConnectionRecord — and, when a non-empty tunnelId is
present, the tunnel's registry entry — only when the underlying driver
close succeeds; when the driver close reports an error the call
re-raises it and leaves both registries untouched, so the record is NOT
removed on a failing close. -/
theorem closeConnection_registry_C3 (f : String → Except String Unit)
    (st : RdsState) (cid : String) (info : ConnectionInfo)
    (hl : lookupA st.connections cid = some info) :
    (∀ e, f cid = .error e →
      closeConnection f st cid = (st, .error (.driver e))) ∧
    (∀ u, f cid = .ok u →
      lookupA ((closeConnection f st cid).1).connections cid = none ∧
      (∀ tid, info.tunnelId = some tid → tid ≠ "" →
        lookupA ((closeConnection f st cid).1).tunnels tid = none) ∧
      (closeConnection f st cid).2 = .ok ("Đã đóng kết nối " ++ cid)) := by
  constructor
  · intro e he
    exact closeConnection_of_error hl he
  · intro u hu
    rw [closeConnection_of_ok hl hu]
    refine ⟨lookupA_eraseA_self _ _, ?_, rfl⟩
    intro tid htid hne
    have hg : info.tunnelId.getD "" = tid := by rw [htid]; rfl
    have hc1 : jsTruthyStr info.tunnelId = true := by
      rw [htid]
      simp [jsTruthyStr, hne]
    by_cases hs : (lookupA st.tunnels (info.tunnelId.getD "")).isSome = true
    · show lookupA
        (if jsTruthyStr info.tunnelId = true
            ∧ (lookupA st.tunnels (info.tunnelId.getD "")).isSome = true
          then eraseA st.tunnels (info.tunnelId.getD "")
          else st.tunnels) tid = none
      rw [if_pos ⟨hc1, hs⟩, hg]
      exact lookupA_eraseA_self _ _
    · show lookupA
        (if jsTruthyStr info.tunnelId = true
            ∧ (lookupA st.tunnels (info.tunnelId.getD "")).isSome = true
          then eraseA st.tunnels (info.tunnelId.getD "")
          else st.tunnels) tid = none
      rw [if_neg (fun hcc => hs hcc.2), ← hg]
      cases hH : lookupA st.tunnels (info.tunnelId.getD "") with
      | none => rfl
      | some _ => rw [hH] at hs; simp at hs

/-- Registry fixture: one tunneled MySQL connection over tunnel `t1`. -/
def stC3 : RdsState :=
  { connections := [("c1", { engine := .mysql, tunnelId := some "t1" })],
    tunnels := [("t1", tun1)] }

/-- C3 counterexample: the driver close on `c1` reports an error; the
call rejects with the wrapped driver error, the state is unchanged, and
the ConnectionRecord is still present — the registry entry was not
removed, contrary to the claim. -/
theorem closeConnection_error_keeps_entry_C3_cex :
    closeConnection (fun _ => .error "boom") stC3 "c1"
      = (stC3, .error (.driver "boom")) ∧
    lookupA stC3.connections "c1"
      = some { engine := .mysql, tunnelId := some "t1" } :=
  ⟨rfl, rfl⟩

/-- C3 witness: on `stC3`, a succeeding close removes the record and the
tunnel entry, while a throwing close re-raises and keeps the state. -/
theorem closeConnection_registry_C3_witness :
    lookupA ((closeConnection (fun _ => .ok ()) stC3 "c1").1).connections
      "c1" = none ∧
    lookupA ((closeConnection (fun _ => .ok ()) stC3 "c1").1).tunnels
      "t1" = none ∧
    closeConnection (fun _ => .error "boom") stC3 "c1"
      = (stC3, .error (.driver "boom")) :=
  ⟨((closeConnection_registry_C3 (fun _ => .ok ()) stC3 "c1"
      { engine := .mysql, tunnelId := some "t1" } rfl).2 () rfl).1,
   ((closeConnection_registry_C3 (fun _ => .ok ()) stC3 "c1"
      { engine := .mysql, tunnelId := some "t1" } rfl).2 () rfl).2.1
      "t1" rfl (by decide),
   (closeConnection_registry_C3 (fun _ => .error "boom") stC3 "c1"
      { engine := .mysql, tunnelId := some "t1" } rfl).1 "boom" rfl⟩

/-! ### C2 — transaction rollback and error propagation -/

theorem runStmts_prefix {ρ : Type} (exec : Stmt → Except String ρ) :
    ∀ (qs : List Stmt) (k : Nat) (hk : k < qs.length) (e : String),
      (∀ q ∈ qs.take k, ∃ r, exec q = .ok r) →
      exec (qs.get ⟨k, hk⟩) = .error e →
      runStmts exec qs = (qs.take (k + 1), .error e) := by
  intro qs
  induction qs with
  | nil => intro k hk; exact absurd hk (by simp)
  | cons q qs ih =>
    intro k hk e hpre hfail
    cases k with
    | zero =>
      have hq : exec q = .error e := hfail
      simp [runStmts, hq, List.take]
    | succ k' =>
      obtain ⟨r, hr⟩ := hpre q (by simp [List.take_succ_cons])
      have hk' : k' < qs.length := Nat.lt_of_succ_lt_succ hk
      have hpre' : ∀ q' ∈ qs.take k', ∃ r', exec q' = .ok r' := by
        intro q' hq'
        exact hpre q' (by simp [List.take_succ_cons, hq'])
      have hfail' : exec (qs.get ⟨k', hk'⟩) = .error e := hfail
      have hrec := ih k' hk' e hpre' hfail'
      simp [runStmts, hr, hrec, List.take_succ_cons]

/-- C2 (amended): for a registered connection and a transaction whose
statement k is the first to fail, statements execute strictly in the
caller-supplied order and none after k runs (the executed list is
exactly the first k+1 statements); the failure triggers a rollback; when
the rollback succeeds the original statement-k error is re-raised, but
when the rollback itself fails, the rollback's own error replaces the
original one as the error surfaced to the caller. -/
theorem transaction_rollback_C2 {ρ : Type}
    (commitR rollbackR : Except String Unit)
    (exec : Stmt → Except String ρ) (st : RdsState)
    (p : TransactionParams) (info : ConnectionInfo) (k : Nat) (e : String)
    (hl : lookupA st.connections p.connectionId = some info)
    (hk : k < p.queries.length)
    (hpre : ∀ q ∈ p.queries.take k, ∃ r, exec q = .ok r)
    (hfail : exec (p.queries.get ⟨k, hk⟩) = .error e) :
    (executeTransaction (.ok ()) commitR rollbackR exec st p).1
      = p.queries.take (k + 1) ∧
    (rollbackR = .ok () →
      (executeTransaction (.ok ()) commitR rollbackR exec st p).2
        = .error (.driver e)) ∧
    (∀ re, rollbackR = .error re →
      (executeTransaction (.ok ()) commitR rollbackR exec st p).2
        = .error (.driver re)) := by
  have hrun := runStmts_prefix exec p.queries k hk e hpre hfail
  refine ⟨?_, ?_, ?_⟩
  · cases hrb : rollbackR <;> simp [executeTransaction, hl, hrun]
  · intro h
    simp [executeTransaction, hl, hrun, h]
  · intro re h
    simp [executeTransaction, hl, hrun, h]

/-- Transaction fixtures: the statement labelled `bad` fails with `E1`,
everything else succeeds. -/
def execC2 : Stmt → Except String (List String) :=
  fun s => if s.sql = "bad" then .error "E1" else .ok ["row"]

def stTxn : RdsState :=
  { connections := [("c", { engine := .mysql, tunnelId := none })],
    tunnels := [] }

def txnParams : TransactionParams :=
  ⟨"c", [⟨"q1", none⟩, ⟨"bad", none⟩, ⟨"q3", none⟩]⟩

/-- C2 counterexample: statement 2 fails with `E1` and the rollback
itself fails with `E2`; the error surfaced to the caller is the
rollback's `E2`, not the original `E1` — refuting the claim that a
rollback failure is only logged and never replaces the original
error. -/
theorem transaction_rollback_error_replaces_C2_cex :
    (executeTransaction (.ok ()) (.ok ()) (.error "E2") execC2 stTxn
        txnParams).2 = .error (.driver "E2") ∧
    (executeTransaction (.ok ()) (.ok ()) (.error "E2") execC2 stTxn
        txnParams).2 ≠ .error (.driver "E1") :=
  ⟨rfl, by decide⟩

/-- C2 witness: the amended statement on the concrete transaction — the
executed prefix stops at the failing statement and the rollback's error
is surfaced. -/
theorem transaction_rollback_C2_witness :
    (executeTransaction (.ok ()) (.ok ()) (.error "E2") execC2 stTxn
        txnParams).1 = [⟨"q1", none⟩, ⟨"bad", none⟩] ∧
    (executeTransaction (.ok ()) (.ok ()) (.error "E2") execC2 stTxn
        txnParams).2 = .error (.driver "E2") := by
  have h := transaction_rollback_C2 (.ok ()) (.error "E2") execC2 stTxn
    txnParams { engine := .mysql, tunnelId := none } 1 "E1" rfl
    (by decide)
    (by
      intro q hq
      simp [txnParams, List.take] at hq
      subst hq
      exact ⟨["row"], rfl⟩)
    rfl
  exact ⟨h.1, h.2.2 "E2" rfl⟩

/-! ### C6 — routing on sshHost truthiness -/

theorem createTunnel_ok_inv {env : DriverEnv} {st : RdsState}
    {p : TunnelParams} {now : Nat} {st1 : RdsState} {tunnel : TunnelInfo}
    (h : createTunnel env st p now = (st1, .ok tunnel)) :
    tunnel.localHost = "127.0.0.1" ∧
    tunnel.tunnelId = "tunnel_" ++ toString now ∧
    env.tunnelResult = .ok tunnel.localPort ∧
    st1 = { st with tunnels := (setA st.tunnels ("tunnel_" ++ toString now)
            tunnel) } := by
  unfold createTunnel at h
  split at h
  · simp at h
  · cases henv : env.tunnelResult with
    | error e2 => rw [henv] at h; simp at h
    | ok lp =>
      rw [henv] at h
      simp only [Prod.mk.injEq, Except.ok.injEq] at h
      obtain ⟨h1, h2⟩ := h
      subst h2
      subst h1
      exact ⟨rfl, rfl, rfl, rfl⟩

theorem connectToMySql_direct (env : DriverEnv) (st : RdsState)
    (p : MySqlConnectParams) (now : Nat)
    (h : jsTruthyStr p.sshHost = false) :
    (connectToMySql env st p now).state.tunnels = st.tunnels ∧
    ∀ r, (connectToMySql env st p now).result = .ok r →
      r.viaTunnel = false ∧ r.tunnelId = none := by
  unfold connectToMySql
  rw [if_neg (by simp [h])]
  cases hiam : jsTruthyBool p.useIAM with
  | false =>
    rw [if_neg (by simp [hiam])]
    refine ⟨registerConnection_tunnels _ _ _ _ _ _ _, ?_⟩
    intro r hr
    have hshape := registerConnection_result_ok _ _ _ _ _ _ _ r hr
    rw [hshape]
    exact ⟨rfl, rfl⟩
  | true =>
    rw [if_pos (by simp [hiam])]
    cases htok : env.tokenFor ⟨p.host, jsOrNat p.port 3306, p.user, none⟩ with
    | error e =>
      exact ⟨rfl, fun r hr => by simp at hr⟩
    | ok token =>
      refine ⟨registerConnection_tunnels _ _ _ _ _ _ _, ?_⟩
      intro r hr
      have hshape := registerConnection_result_ok _ _ _ _ _ _ _ r hr
      rw [hshape]
      exact ⟨rfl, rfl⟩

theorem connectToPostgres_direct (env : DriverEnv) (st : RdsState)
    (p : PostgresConnectParams) (now : Nat)
    (h : jsTruthyStr p.sshHost = false) :
    (connectToPostgres env st p now).state.tunnels = st.tunnels ∧
    ∀ r, (connectToPostgres env st p now).result = .ok r →
      r.viaTunnel = false ∧ r.tunnelId = none := by
  unfold connectToPostgres
  rw [if_neg (by simp [h])]
  cases hiam : jsTruthyBool p.useIAM with
  | false =>
    rw [if_neg (by simp [hiam])]
    refine ⟨registerConnection_tunnels _ _ _ _ _ _ _, ?_⟩
    intro r hr
    have hshape := registerConnection_result_ok _ _ _ _ _ _ _ r hr
    rw [hshape]
    exact ⟨rfl, rfl⟩
  | true =>
    rw [if_pos (by simp [hiam])]
    cases htok : env.tokenFor ⟨p.host, jsOrNat p.port 5432, p.user, none⟩ with
    | error e =>
      exact ⟨rfl, fun r hr => by simp at hr⟩
    | ok token =>
      refine ⟨registerConnection_tunnels _ _ _ _ _ _ _, ?_⟩
      intro r hr
      have hshape := registerConnection_result_ok _ _ _ _ _ _ _ r hr
      rw [hshape]
      exact ⟨rfl, rfl⟩

theorem connectToMySqlWithTunnel_ok_shape (env : DriverEnv)
    (st : RdsState) (p : MySqlConnectParams) (now : Nat)
    (r : ConnectionResult)
    (hr : (connectToMySqlWithTunnel env st p now).result = .ok r) :
    r.viaTunnel = true ∧ r.tunnelId = some ("tunnel_" ++ toString now) ∧
    lookupA (connectToMySqlWithTunnel env st p now).state.tunnels
      ("tunnel_" ++ toString now) ≠ none := by
  revert hr
  unfold connectToMySqlWithTunnel
  split
  · intro hr; simp at hr
  · split
    · intro hr; simp at hr
    · rename_i st1 tunnel heq
      obtain ⟨hlh, htid, henv2, hst1⟩ := createTunnel_ok_inv heq
      subst hst1
      split
      · split
        · intro hr; simp at hr
        · intro hr
          have hshape := registerConnection_result_ok _ _ _ _ _ _ _ r hr
          rw [hshape]
          refine ⟨rfl, by rw [htid], ?_⟩
          rw [registerConnection_tunnels]
          show lookupA (setA st.tunnels ("tunnel_" ++ toString now) tunnel)
            ("tunnel_" ++ toString now) ≠ none
          rw [lookupA_setA_self]
          simp
      · intro hr
        have hshape := registerConnection_result_ok _ _ _ _ _ _ _ r hr
        rw [hshape]
        refine ⟨rfl, by rw [htid], ?_⟩
        rw [registerConnection_tunnels]
        show lookupA (setA st.tunnels ("tunnel_" ++ toString now) tunnel)
          ("tunnel_" ++ toString now) ≠ none
        rw [lookupA_setA_self]
        simp

theorem connectToPostgresWithTunnel_ok_shape (env : DriverEnv)
    (st : RdsState) (p : PostgresConnectParams) (now : Nat)
    (r : ConnectionResult)
    (hr : (connectToPostgresWithTunnel env st p now).result = .ok r) :
    r.viaTunnel = true ∧ r.tunnelId = some ("tunnel_" ++ toString now) ∧
    lookupA (connectToPostgresWithTunnel env st p now).state.tunnels
      ("tunnel_" ++ toString now) ≠ none := by
  revert hr
  unfold connectToPostgresWithTunnel
  split
  · intro hr; simp at hr
  · split
    · intro hr; simp at hr
    · rename_i st1 tunnel heq
      obtain ⟨hlh, htid, henv2, hst1⟩ := createTunnel_ok_inv heq
      subst hst1
      split
      · split
        · intro hr; simp at hr
        · intro hr
          have hshape := registerConnection_result_ok _ _ _ _ _ _ _ r hr
          rw [hshape]
          refine ⟨rfl, by rw [htid], ?_⟩
          rw [registerConnection_tunnels]
          show lookupA (setA st.tunnels ("tunnel_" ++ toString now) tunnel)
            ("tunnel_" ++ toString now) ≠ none
          rw [lookupA_setA_self]
          simp
      · intro hr
        have hshape := registerConnection_result_ok _ _ _ _ _ _ _ r hr
        rw [hshape]
        refine ⟨rfl, by rw [htid], ?_⟩
        rw [registerConnection_tunnels]
        show lookupA (setA st.tunnels ("tunnel_" ++ toString now) tunnel)
          ("tunnel_" ++ toString now) ≠ none
        rw [lookupA_setA_self]
        simp

theorem connectToMySqlWithTunnel_config (env : DriverEnv) (st : RdsState)
    (p : MySqlConnectParams) (now lp : Nat)
    (henv : env.tunnelResult = .ok lp) (c : DbAuthConfig)
    (hc : (connectToMySqlWithTunnel env st p now).config = some c) :
    c.host = "127.0.0.1" ∧ c.port = lp := by
  revert hc
  unfold connectToMySqlWithTunnel
  split
  · intro hc; simp at hc
  · split
    · intro hc; simp at hc
    · rename_i st1 tunnel heq
      obtain ⟨hlh, htid, henv2, hst1⟩ := createTunnel_ok_inv heq
      have hlp : tunnel.localPort = lp := by
        rw [henv] at henv2
        injection henv2 with hh
        exact hh.symm
      split
      · split
        · intro hc; simp at hc
        · intro hc
          rw [registerConnection_config] at hc
          injection hc with hc
          exact ⟨by rw [← hc]; exact hlh, by rw [← hc]; exact hlp⟩
      · intro hc
        rw [registerConnection_config] at hc
        injection hc with hc
        exact ⟨by rw [← hc]; exact hlh, by rw [← hc]; exact hlp⟩

theorem connectToPostgresWithTunnel_config (env : DriverEnv)
    (st : RdsState) (p : PostgresConnectParams) (now lp : Nat)
    (henv : env.tunnelResult = .ok lp) (c : DbAuthConfig)
    (hc : (connectToPostgresWithTunnel env st p now).config = some c) :
    c.host = "127.0.0.1" ∧ c.port = lp := by
  revert hc
  unfold connectToPostgresWithTunnel
  split
  · intro hc; simp at hc
  · split
    · intro hc; simp at hc
    · rename_i st1 tunnel heq
      obtain ⟨hlh, htid, henv2, hst1⟩ := createTunnel_ok_inv heq
      have hlp : tunnel.localPort = lp := by
        rw [henv] at henv2
        injection henv2 with hh
        exact hh.symm
      split
      · split
        · intro hc; simp at hc
        · intro hc
          rw [registerConnection_config] at hc
          injection hc with hc
          exact ⟨by rw [← hc]; exact hlh, by rw [← hc]; exact hlp⟩
      · intro hc
        rw [registerConnection_config] at hc
        injection hc with hc
        exact ⟨by rw [← hc]; exact hlh, by rw [← hc]; exact hlp⟩

/-- C6 (amended): routing is by JavaScript truthiness of `sshHost`, not
bare presence.  When `sshHost` is absent — or present but equal to the
empty string — the direct path is taken: the tunnel registry is
untouched and any successful result has `viaTunnel = false` and no
tunnelId.  When `sshHost` is a non-empty string, the call delegates to
the tunneled variant; any successful result has `viaTunnel = true` and
tunnelId `tunnel_${now}` of a tunnel registered in the tunnel registry,
and the driver config targets the tunnel's bound local endpoint
`127.0.0.1:assignedPort` (tunnel first, session second). -/
theorem sshHost_routing_C6 (env : DriverEnv) (st : RdsState)
    (pM : MySqlConnectParams) (pP : PostgresConnectParams) (now lp : Nat) :
    (jsTruthyStr pM.sshHost = false →
      (connectToMySql env st pM now).state.tunnels = st.tunnels ∧
      ∀ r, (connectToMySql env st pM now).result = .ok r →
        r.viaTunnel = false ∧ r.tunnelId = none) ∧
    (jsTruthyStr pM.sshHost = true →
      connectToMySql env st pM now = connectToMySqlWithTunnel env st pM now ∧
      (∀ r, (connectToMySql env st pM now).result = .ok r →
        r.viaTunnel = true ∧ r.tunnelId = some ("tunnel_" ++ toString now) ∧
        lookupA (connectToMySql env st pM now).state.tunnels
          ("tunnel_" ++ toString now) ≠ none) ∧
      (env.tunnelResult = .ok lp →
        ∀ c, (connectToMySql env st pM now).config = some c →
          c.host = "127.0.0.1" ∧ c.port = lp)) ∧
    (jsTruthyStr pP.sshHost = false →
      (connectToPostgres env st pP now).state.tunnels = st.tunnels ∧
      ∀ r, (connectToPostgres env st pP now).result = .ok r →
        r.viaTunnel = false ∧ r.tunnelId = none) ∧
    (jsTruthyStr pP.sshHost = true →
      connectToPostgres env st pP now
        = connectToPostgresWithTunnel env st pP now ∧
      (∀ r, (connectToPostgres env st pP now).result = .ok r →
        r.viaTunnel = true ∧ r.tunnelId = some ("tunnel_" ++ toString now) ∧
        lookupA (connectToPostgres env st pP now).state.tunnels
          ("tunnel_" ++ toString now) ≠ none) ∧
      (env.tunnelResult = .ok lp →
        ∀ c, (connectToPostgres env st pP now).config = some c →
          c.host = "127.0.0.1" ∧ c.port = lp)) := by
  refine ⟨fun h => connectToMySql_direct env st pM now h, fun h => ?_,
          fun h => connectToPostgres_direct env st pP now h, fun h => ?_⟩
  · have heq : connectToMySql env st pM now
        = connectToMySqlWithTunnel env st pM now := by
      unfold connectToMySql
      rw [if_pos h]
    refine ⟨heq, fun r hr => ?_, fun he c hc => ?_⟩
    · rw [heq] at hr ⊢
      exact connectToMySqlWithTunnel_ok_shape env st pM now r hr
    · rw [heq] at hc
      exact connectToMySqlWithTunnel_config env st pM now lp he c hc
  · have heq : connectToPostgres env st pP now
        = connectToPostgresWithTunnel env st pP now := by
      unfold connectToPostgres
      rw [if_pos h]
    refine ⟨heq, fun r hr => ?_, fun he c hc => ?_⟩
    · rw [heq] at hr ⊢
      exact connectToPostgresWithTunnel_ok_shape env st pP now r hr
    · rw [heq] at hc
      exact connectToPostgresWithTunnel_config env st pP now lp he c hc

/-- Params with `sshHost` present but equal to the empty string. -/
def mysqlParamsEmptySsh : MySqlConnectParams :=
  { host := "db.internal", user := "u", password := "pw", database := "d",
    sshHost := some "", sshUsername := some "admin",
    sshPassword := some "sshpw" }

/-- C6 counterexample: `sshHost` is present in the params (the empty
string), yet the call takes the direct path — it succeeds with
`viaTunnel = false`, a direct-style connectionId, and registers no
tunnel — contrary to the claim that presence of `sshHost` routes to the
tunneled path with `viaTunnel = true` and a tunnelId. -/
theorem sshHost_empty_routes_direct_C6_cex :
    mysqlParamsEmptySsh.sshHost = some "" ∧
    (connectToMySql envAllOk ⟨[], []⟩ mysqlParamsEmptySsh 7).result =
      .ok { connectionId := "mysql_db.internal_d_7", engine := .mysql,
            connected := true, viaTunnel := false, tunnelId := none } ∧
    (connectToMySql envAllOk ⟨[], []⟩ mysqlParamsEmptySsh 7).state.tunnels
      = [] :=
  ⟨rfl, rfl, rfl⟩

/-- C6 witness: the amended routing rule on concrete calls — a
no-sshHost MySQL connect leaves the tunnel registry untouched, and a
non-empty-sshHost connect registers `tunnel_9` in it. -/
theorem sshHost_routing_C6_witness :
    (connectToMySql envAllOk ⟨[], []⟩ mysqlParamsPlain 100).state.tunnels
      = [] ∧
    lookupA ((connectToMySql envAllOk ⟨[], []⟩
        mysqlParamsIamTunnel 9).state.tunnels) "tunnel_9" ≠ none :=
  ⟨((sshHost_routing_C6 envAllOk ⟨[], []⟩ mysqlParamsPlain
      pgParamsIamTunnel 100 5000).1 rfl).1,
   ((((sshHost_routing_C6 envAllOk ⟨[], []⟩ mysqlParamsIamTunnel
      pgParamsIamTunnel 9 5000).2.1 rfl).2.1
      { connectionId := "mysql_ssh_realdb.internal_d_9", engine := .mysql,
        connected := true, viaTunnel := true,
        tunnelId := some "tunnel_9" } rfl).2.2)⟩

/-! ### C10 — orphaned tunnel on a failed tunneled connect -/

theorem connectToMySql_tunnel_state_of_error (env : DriverEnv)
    (st : RdsState) (p : MySqlConnectParams) (now lp : Nat) (e : RdsError)
    (hssh : jsTruthyStr p.sshHost = true)
    (huser : jsTruthyStr p.sshUsername = true)
    (hpass : jsTruthyStr p.sshPassword = true)
    (henv : env.tunnelResult = .ok lp)
    (hr : (connectToMySql env st p now).result = .error e) :
    (connectToMySql env st p now).state
      = { st with tunnels := (setA st.tunnels ("tunnel_" ++ toString now)
          ⟨"127.0.0.1", lp, p.host, jsOrNat p.port 3306,
           "tunnel_" ++ toString now⟩) } := by
  revert hr
  unfold connectToMySql connectToMySqlWithTunnel
  rw [if_pos hssh, if_neg (by simp [hssh, huser]),
      createTunnel_ok_eq hpass henv]
  split
  · rename_i heq
    simp at heq
  · rename_i st1 tunnel heq
    simp only [Prod.mk.injEq, Except.ok.injEq] at heq
    obtain ⟨h1, h2⟩ := heq
    subst h2
    subst h1
    split
    · split
      · intro hr
        rfl
      · intro hr
        exact registerConnection_state_of_result_error _ _ _ _ _ _ _ e hr
    · intro hr
      exact registerConnection_state_of_result_error _ _ _ _ _ _ _ e hr

theorem connectToPostgres_tunnel_state_of_error (env : DriverEnv)
    (st : RdsState) (p : PostgresConnectParams) (now lp : Nat)
    (e : RdsError)
    (hssh : jsTruthyStr p.sshHost = true)
    (huser : jsTruthyStr p.sshUsername = true)
    (hpass : jsTruthyStr p.sshPassword = true)
    (henv : env.tunnelResult = .ok lp)
    (hr : (connectToPostgres env st p now).result = .error e) :
    (connectToPostgres env st p now).state
      = { st with tunnels := (setA st.tunnels ("tunnel_" ++ toString now)
          ⟨"127.0.0.1", lp, p.host, jsOrNat p.port 5432,
           "tunnel_" ++ toString now⟩) } := by
  revert hr
  unfold connectToPostgres connectToPostgresWithTunnel
  rw [if_pos hssh, if_neg (by simp [hssh, huser]),
      createTunnel_ok_eq hpass henv]
  split
  · rename_i heq
    simp at heq
  · rename_i st1 tunnel heq
    simp only [Prod.mk.injEq, Except.ok.injEq] at heq
    obtain ⟨h1, h2⟩ := heq
    subst h2
    subst h1
    split
    · split
      · intro hr
        rfl
      · intro hr
        exact registerConnection_state_of_result_error _ _ _ _ _ _ _ e hr
    · intro hr
      exact registerConnection_state_of_result_error _ _ _ _ _ _ _ e hr

/-- C10: on a tunneled connect whose tunnel creation succeeds but whose
subsequent step (IAM token issuance or the driver connect) fails, the
call rejects with that error while the freshly created tunnel stays
registered in the tunnel registry under `tunnel_${now}` — nothing closes
it — and the connection registry is unchanged, so no ConnectionRecord
references it.  The `close()` sweep does reclaim it: `closeAll` on the
resulting state empties the tunnel registry. -/
theorem orphan_tunnel_on_failed_connect_C10 (env : DriverEnv)
    (st : RdsState) (pM : MySqlConnectParams) (pP : PostgresConnectParams)
    (now lp : Nat) (closeRes : String → Except String Unit) :
    (jsTruthyStr pM.sshHost = true → jsTruthyStr pM.sshUsername = true →
     jsTruthyStr pM.sshPassword = true → env.tunnelResult = .ok lp →
     ∀ e, (connectToMySql env st pM now).result = .error e →
       (connectToMySql env st pM now).state.connections = st.connections ∧
       lookupA ((connectToMySql env st pM now).state.tunnels)
         ("tunnel_" ++ toString now)
         = some ⟨"127.0.0.1", lp, pM.host, jsOrNat pM.port 3306,
                 "tunnel_" ++ toString now⟩ ∧
       (closeAll closeRes (connectToMySql env st pM now).state).tunnels
         = []) ∧
    (jsTruthyStr pP.sshHost = true → jsTruthyStr pP.sshUsername = true →
     jsTruthyStr pP.sshPassword = true → env.tunnelResult = .ok lp →
     ∀ e, (connectToPostgres env st pP now).result = .error e →
       (connectToPostgres env st pP now).state.connections
         = st.connections ∧
       lookupA ((connectToPostgres env st pP now).state.tunnels)
         ("tunnel_" ++ toString now)
         = some ⟨"127.0.0.1", lp, pP.host, jsOrNat pP.port 5432,
                 "tunnel_" ++ toString now⟩ ∧
       (closeAll closeRes (connectToPostgres env st pP now).state).tunnels
         = []) := by
  constructor
  · intro hssh huser hpass henv e hr
    rw [connectToMySql_tunnel_state_of_error env st pM now lp e hssh huser
        hpass henv hr]
    exact ⟨rfl, lookupA_setA_self _ _ _, closeAll_tunnels_nil _ _⟩
  · intro hssh huser hpass henv e hr
    rw [connectToPostgres_tunnel_state_of_error env st pP now lp e hssh
        huser hpass henv hr]
    exact ⟨rfl, lookupA_setA_self _ _ _, closeAll_tunnels_nil _ _⟩

/-- Driver environment whose SQL connect calls always fail. -/
def envDriverFail : DriverEnv :=
  { rdsSsl := false, tunnelResult := .ok 5000,
    tokenFor := fun _ => .ok "iam-token",
    mysqlConnect := fun _ => .error "connect refused",
    pgConnect := fun _ => .error "connect refused" }

/-- C10 witness: the tunneled IAM MySQL connect whose driver connect is
refused leaves the connection registry empty and `tunnel_9` orphaned in
the tunnel registry, and the sweep reclaims it. -/
theorem orphan_tunnel_on_failed_connect_C10_witness :
    ((connectToMySql envDriverFail ⟨[], []⟩
        mysqlParamsIamTunnel 9).state.connections) = [] ∧
    lookupA ((connectToMySql envDriverFail ⟨[], []⟩
        mysqlParamsIamTunnel 9).state.tunnels) "tunnel_9"
      = some ⟨"127.0.0.1", 5000, "realdb.internal", 3307, "tunnel_9"⟩ ∧
    (closeAll (fun _ => .ok ())
      (connectToMySql envDriverFail ⟨[], []⟩
        mysqlParamsIamTunnel 9).state).tunnels = [] :=
  (orphan_tunnel_on_failed_connect_C10 envDriverFail ⟨[], []⟩
    mysqlParamsIamTunnel pgParamsIamTunnel 9 5000 (fun _ => .ok ())).1
    rfl rfl rfl rfl (.driver "connect refused") rfl

end DevopsMcp
